import Mathlib

/-!
Verification of the Koopa Engine collision and game-state core.

The repository holds two near-duplicate implementations:
variant A, `KoopaHDR1.07.31.251.0X.py`, embedded in namespace `HDX`, and
variant B, `koopahdr.py`, embedded in namespace `HDR`.

Embedding conventions.
Rectangles follow pygame: integer topleft corner plus width and height,
`colliderect` is strict overlap on both axes.  Velocities are `pg.math.Vector2`
floats; they are modelled as rationals, which is exact for every operation the
claims exercise (additions, comparisons with zero, products with the integer
and decimal constants of the source).  Assigning a float to a pygame rect
coordinate truncates toward zero; `pyInt` models that conversion.
-/

/-- A pygame rectangle: integer topleft corner, width and height. -/
structure Rect where
  x : Int
  y : Int
  w : Int
  h : Int
deriving DecidableEq, Repr

/-- pygame colliderect: strict overlap on both axes. -/
def Rect.collide (a b : Rect) : Bool :=
  decide (a.x < b.x + b.w) && decide (a.x + a.w > b.x) &&
  decide (a.y < b.y + b.h) && decide (a.y + a.h > b.y)

/-- Assigning a float to a pygame rect coordinate truncates toward zero,
as the C cast does: floor for nonnegative values and, for negative ones, the
ceiling, written here as the negated floor of the negation. -/
def pyInt (q : ℚ) : Int :=
  if 0 ≤ q then Int.floor q else -Int.floor (-q)

/-- The kinematic state shared by the entity classes: bounding rectangle,
velocity vector, and the grounded flag (`self.on_ground`). -/
structure Body where
  rect : Rect
  velx : ℚ
  vely : ℚ
  onGround : Bool
deriving DecidableEq, Repr

/-- The move `self.rect.x += self.vel.x` (int + float assigned back to int). -/
def moveX (b : Body) : Body :=
  { b with rect := { b.rect with x := pyInt ((b.rect.x : ℚ) + b.velx) } }

/-- The move `self.rect.y += self.vel.y`. -/
def moveY (b : Body) : Body :=
  { b with rect := { b.rect with y := pyInt ((b.rect.y : ℚ) + b.vely) } }

namespace HDX

/-- Variant A, `Entity.check_collisions_x`, body of the tile loop:
on overlap, snap right edge to tile left when moving right, left edge to tile
right when moving left, then unconditionally zero the horizontal velocity. -/
def stepTileX (b : Body) (t : Rect) : Body :=
  if b.rect.collide t then
    let b1 :=
      if b.velx > 0 then { b with rect := { b.rect with x := t.x - b.rect.w } }
      else if b.velx < 0 then { b with rect := { b.rect with x := t.x + t.w } }
      else b
    { b1 with velx := 0 }
  else b

/-- Variant A, `Entity.check_collisions_x`: fold the snap over the tile list. -/
def check_collisions_x (b : Body) (tiles : List Rect) : Body :=
  tiles.foldl stepTileX b

/-- Variant A horizontal sweep as called from the update methods:
`self.rect.x += self.vel.x` followed by `check_collisions_x`. -/
def horizontalSweep (b : Body) (tiles : List Rect) : Body :=
  check_collisions_x (moveX b) tiles

/-- Variant A, `Entity.check_collisions_y`, body of the tile loop:
falling snaps the bottom edge to the tile top, zeroes the vertical velocity
and grounds the body; rising snaps the top edge to the tile bottom and zeroes
the vertical velocity. -/
def stepTileY (b : Body) (t : Rect) : Body :=
  if b.rect.collide t then
    if b.vely > 0 then
      { b with rect := { b.rect with y := t.y - b.rect.h }, vely := 0, onGround := true }
    else if b.vely < 0 then
      { b with rect := { b.rect with y := t.y + t.h }, vely := 0 }
    else b
  else b

/-- Variant A, `Entity.check_collisions_y`: clear `self.on_ground`, then fold
the snap over the tile list. -/
def check_collisions_y (b : Body) (tiles : List Rect) : Body :=
  tiles.foldl stepTileY { b with onGround := false }

/-- Variant A vertical sweep as called from the update methods:
`self.rect.y += self.vel.y` followed by `check_collisions_y`. -/
def verticalSweep (b : Body) (tiles : List Rect) : Body :=
  check_collisions_y (moveY b) tiles

/-- Variant A, the axis-separated resolution of one tick as performed in
`Player.update` lines 338-341: move and resolve x, then move and resolve y. -/
def integrate (b : Body) (tiles : List Rect) : Body :=
  verticalSweep (horizontalSweep b tiles) tiles

end HDX

/-- Modelled from the spec sentence for the vertical sweep: add velocity.y to
position.y, clear grounded, then for every solid rectangle overlapping the new
bounding box apply the falling or rising snap.  Snap action of that sentence. -/
def specSnapY (b : Body) (t : Rect) : Body :=
  if b.vely > 0 then
    { b with rect := { b.rect with y := t.y - b.rect.h }, vely := 0, onGround := true }
  else if b.vely < 0 then
    { b with rect := { b.rect with y := t.y + t.h }, vely := 0 }
  else b

/-- Modelled from the spec sentence for the vertical sweep, assembled: the
snaps are applied to exactly the solids overlapping the moved bounding box. -/
def vSweepSpecA (b : Body) (tiles : List Rect) : Body :=
  let start : Body := { moveY b with onGround := false }
  (tiles.filter (fun t => start.rect.collide t)).foldl specSnapY start

namespace HDR

/-- Variant B, `Player.check_collisions` with direction horizontal, body of
the tile loop: on overlap, snap the leading edge to the facing tile edge; the
horizontal velocity is left unchanged. -/
def playerStepTileX (b : Body) (t : Rect) : Body :=
  if b.rect.collide t then
    if b.velx > 0 then { b with rect := { b.rect with x := t.x - b.rect.w } }
    else if b.velx < 0 then { b with rect := { b.rect with x := t.x + t.w } }
    else b
  else b

/-- Variant B, `Player.check_collisions` with direction horizontal. -/
def player_check_collisions_x (b : Body) (tiles : List Rect) : Body :=
  tiles.foldl playerStepTileX b

/-- Variant B player horizontal sweep: `self.rect.x += self.vel.x` followed
by the horizontal branch of `check_collisions`. -/
def playerHorizontalSweep (b : Body) (tiles : List Rect) : Body :=
  player_check_collisions_x (moveX b) tiles

/-- Variant B, `Player.check_collisions` with direction vertical, body of the
tile loop: falling snaps bottom to tile top, zeroes vertical velocity and sets
`self.on_ground`; rising snaps top to tile bottom and zeroes the velocity.
A write-only `self.jumping` flag, read nowhere in the program, is omitted. -/
def playerStepTileY (b : Body) (t : Rect) : Body :=
  if b.rect.collide t then
    if b.vely > 0 then
      { b with rect := { b.rect with y := t.y - b.rect.h }, vely := 0, onGround := true }
    else if b.vely < 0 then
      { b with rect := { b.rect with y := t.y + t.h }, vely := 0 }
    else b
  else b

/-- Variant B, `Player.check_collisions` with direction vertical: unlike
variant A there is no reset of `self.on_ground` before the loop. -/
def player_check_collisions_y (b : Body) (tiles : List Rect) : Body :=
  tiles.foldl playerStepTileY b

/-- Variant B player vertical sweep: `self.rect.y += self.vel.y` followed by
the vertical branch of `check_collisions`. -/
def playerVerticalSweep (b : Body) (tiles : List Rect) : Body :=
  player_check_collisions_y (moveY b) tiles

/-- Variant B, `Koopa.check_collisions`, body of the tile loop: only the
falling case is handled; a rising enemy is neither snapped nor stopped, and
Koopa objects of variant B track no grounded flag at all. -/
def koopaStepTileY (b : Body) (t : Rect) : Body :=
  if b.rect.collide t then
    if b.vely > 0 then
      { b with rect := { b.rect with y := t.y - b.rect.h }, vely := 0 }
    else b
  else b

/-- Variant B, `Koopa.check_collisions`. -/
def koopa_check_collisions (b : Body) (tiles : List Rect) : Body :=
  tiles.foldl koopaStepTileY b

/-- Variant B koopa vertical sweep: `self.rect.y += self.vel.y` followed by
`Koopa.check_collisions`. -/
def koopaVerticalSweep (b : Body) (tiles : List Rect) : Body :=
  koopa_check_collisions (moveY b) tiles

end HDR

/-! Helper lemmas for the vertical-sweep refinement. -/

theorem HDX.stepTileY_velyZero (b : Body) (t : Rect) (h : b.vely = 0) :
    HDX.stepTileY b t = b := by
  unfold HDX.stepTileY
  split
  · rw [h]
    norm_num
  · rfl

theorem HDX.foldl_stepTileY_velyZero (ts : List Rect) (b : Body) (h : b.vely = 0) :
    ts.foldl HDX.stepTileY b = b := by
  induction ts with
  | nil => rfl
  | cons t ts ih => rw [List.foldl_cons, HDX.stepTileY_velyZero b t h, ih]

theorem specSnapY_velyZero (b : Body) (t : Rect) (h : b.vely = 0) :
    specSnapY b t = b := by
  unfold specSnapY
  rw [h]
  norm_num

theorem foldl_specSnapY_velyZero (ts : List Rect) (b : Body) (h : b.vely = 0) :
    ts.foldl specSnapY b = b := by
  induction ts with
  | nil => rfl
  | cons t ts ih => rw [List.foldl_cons, specSnapY_velyZero b t h, ih]

theorem foldl_stepTileY_eq_filtered (ts : List Rect) (b : Body) :
    ts.foldl HDX.stepTileY b
      = (ts.filter (fun t => b.rect.collide t)).foldl specSnapY b := by
  induction ts generalizing b with
  | nil => rfl
  | cons t ts ih =>
    by_cases hc : b.rect.collide t = true
    · rw [List.foldl_cons, List.filter_cons_of_pos hc, List.foldl_cons]
      rcases lt_trichotomy b.vely 0 with h | h | h
      · have hstep : HDX.stepTileY b t
            = { b with rect := { b.rect with y := t.y + t.h }, vely := 0 } := by
          unfold HDX.stepTileY
          rw [if_pos hc, if_neg (by exact not_lt.mpr (le_of_lt h)), if_pos h]
        have hspec : specSnapY b t
            = { b with rect := { b.rect with y := t.y + t.h }, vely := 0 } := by
          unfold specSnapY
          rw [if_neg (by exact not_lt.mpr (le_of_lt h)), if_pos h]
        rw [hstep, hspec, HDX.foldl_stepTileY_velyZero _ _ rfl, foldl_specSnapY_velyZero _ _ rfl]
      · rw [HDX.stepTileY_velyZero b t h, specSnapY_velyZero b t h]
        exact ih b
      · have hstep : HDX.stepTileY b t
            = { b with rect := { b.rect with y := t.y - b.rect.h }, vely := 0,
                       onGround := true } := by
          unfold HDX.stepTileY
          rw [if_pos hc, if_pos h]
        have hspec : specSnapY b t
            = { b with rect := { b.rect with y := t.y - b.rect.h }, vely := 0,
                       onGround := true } := by
          unfold specSnapY
          rw [if_pos h]
        rw [hstep, hspec, HDX.foldl_stepTileY_velyZero _ _ rfl, foldl_specSnapY_velyZero _ _ rfl]
    · have hb : HDX.stepTileY b t = b := by
        unfold HDX.stepTileY
        rw [if_neg hc]
      rw [List.foldl_cons, List.filter_cons_of_neg (by simpa using hc), hb]
      exact ih b

theorem HDR.playerStepTileY_ground (b : Body) (t : Rect) (h : b.onGround = true) :
    (HDR.playerStepTileY b t).onGround = true := by
  unfold HDR.playerStepTileY
  split
  · split
    · rfl
    · split
      · exact h
      · exact h
  · exact h

theorem HDR.foldl_playerStepTileY_ground (ts : List Rect) (b : Body) (h : b.onGround = true) :
    (ts.foldl HDR.playerStepTileY b).onGround = true := by
  induction ts generalizing b with
  | nil => exact h
  | cons t ts ih => exact ih _ (HDR.playerStepTileY_ground b t h)

theorem HDR.koopaStepTileY_rising (b : Body) (t : Rect) (h : b.vely < 0) :
    HDR.koopaStepTileY b t = b := by
  unfold HDR.koopaStepTileY
  split
  · rw [if_neg (by exact not_lt.mpr (le_of_lt h))]
  · rfl

theorem HDR.foldl_koopaStepTileY_rising (ts : List Rect) (b : Body) (h : b.vely < 0) :
    ts.foldl HDR.koopaStepTileY b = b := by
  induction ts with
  | nil => rfl
  | cons t ts ih => rw [List.foldl_cons, HDR.koopaStepTileY_rising b t h, ih]

/-- C1: the claim holds for variant A, whose shared `Entity.check_collisions_y`
realises exactly the spec-worded vertical sweep (first conjunct, a refinement
equality between the source fold and the spec-worded description).  In variant
B the player sweep never clears the grounded flag (second conjunct: a grounded
body stays grounded through the sweep regardless of the tiles), and the enemy
sweep handles only the falling case (third conjunct: a rising enemy passes
through every tile unchanged apart from the position update). -/
theorem C1_vertical_sweep :
    (∀ (b : Body) (tiles : List Rect), HDX.verticalSweep b tiles = vSweepSpecA b tiles) ∧
    (∀ (b : Body) (tiles : List Rect), b.onGround = true →
      (HDR.playerVerticalSweep b tiles).onGround = true) ∧
    (∀ (b : Body) (tiles : List Rect), b.vely < 0 →
      HDR.koopaVerticalSweep b tiles = moveY b) := by
  refine ⟨fun b tiles => ?_, fun b tiles h => ?_, fun b tiles h => ?_⟩
  · unfold HDX.verticalSweep HDX.check_collisions_y vSweepSpecA
    exact foldl_stepTileY_eq_filtered tiles { moveY b with onGround := false }
  · unfold HDR.playerVerticalSweep HDR.player_check_collisions_y
    exact HDR.foldl_playerStepTileY_ground tiles (moveY b) (by simpa [moveY] using h)
  · unfold HDR.koopaVerticalSweep HDR.koopa_check_collisions
    exact HDR.foldl_koopaStepTileY_rising tiles (moveY b) (by simpa [moveY] using h)

/-- C1 witness: the three conjuncts instantiated at concrete states, the
hypotheses discharged by evaluation. -/
theorem C1_vertical_sweep_witness :
    HDX.verticalSweep ⟨⟨0, 0, 32, 32⟩, 0, 3, false⟩ [⟨0, 32, 32, 32⟩]
        = vSweepSpecA ⟨⟨0, 0, 32, 32⟩, 0, 3, false⟩ [⟨0, 32, 32, 32⟩] ∧
    (HDR.playerVerticalSweep ⟨⟨0, 0, 32, 32⟩, 0, 0, true⟩ []).onGround = true ∧
    HDR.koopaVerticalSweep ⟨⟨0, 40, 32, 32⟩, 0, -6, false⟩ [⟨0, 16, 32, 32⟩]
        = moveY ⟨⟨0, 40, 32, 32⟩, 0, -6, false⟩ :=
  ⟨C1_vertical_sweep.1 _ _, C1_vertical_sweep.2.1 _ _ rfl,
    C1_vertical_sweep.2.2 _ _ (by norm_num)⟩

/-- C1 counterexample: in variant B, a rising enemy (vertical velocity -6)
whose moved box overlaps a solid tile is neither stopped nor snapped: the
claim asserts its velocity becomes 0 and its top edge lands on the tile
bottom (48), but the code leaves velocity -6 and top edge 34. -/
theorem C1_counterexample :
    (HDR.koopaVerticalSweep ⟨⟨0, 40, 32, 32⟩, 0, -6, false⟩ [⟨0, 16, 32, 32⟩]).vely ≠ 0 ∧
    (HDR.koopaVerticalSweep ⟨⟨0, 40, 32, 32⟩, 0, -6, false⟩ [⟨0, 16, 32, 32⟩]).rect.y ≠ 48 := by
  norm_num [HDR.koopaVerticalSweep, HDR.koopa_check_collisions, HDR.koopaStepTileY, moveY,
    pyInt, Rect.collide]

/-! Helper lemmas: a snapped rectangle no longer overlaps the tile. -/

theorem collide_false_right (a t : Rect) (h : a.x + a.w ≤ t.x) : a.collide t = false := by
  unfold Rect.collide
  simp only [Bool.and_eq_false_iff, decide_eq_false_iff_not, not_lt]
  omega

theorem collide_false_left (a t : Rect) (h : t.x + t.w ≤ a.x) : a.collide t = false := by
  unfold Rect.collide
  simp only [Bool.and_eq_false_iff, decide_eq_false_iff_not, not_lt]
  omega

theorem collide_false_bottom (a t : Rect) (h : a.y + a.h ≤ t.y) : a.collide t = false := by
  unfold Rect.collide
  simp only [Bool.and_eq_false_iff, decide_eq_false_iff_not, not_lt]
  omega

theorem collide_false_top (a t : Rect) (h : t.y + t.h ≤ a.y) : a.collide t = false := by
  unfold Rect.collide
  simp only [Bool.and_eq_false_iff, decide_eq_false_iff_not, not_lt]
  omega

/-- C2, amended: when the velocity along the swept axis is nonzero, resolving
against a single solid leaves the body not overlapping it, for both variant A
sweeps and the variant B player sweeps; the variant B enemy sweep gives this
guarantee only when falling (velocity.y > 0), since its rising branch is
missing.  (With zero axis velocity a pre-existing overlap persists, with a
rising variant B enemy it persists even at nonzero velocity, and when several
solids overlap the moved box only the first one processed is guaranteed
resolved; see the counterexample.) -/
theorem C2_single_solid_resolution (b : Body) (t : Rect) :
    (b.velx ≠ 0 → (HDX.horizontalSweep b [t]).rect.collide t = false) ∧
    (b.vely ≠ 0 → (HDX.verticalSweep b [t]).rect.collide t = false) ∧
    (b.velx ≠ 0 → (HDR.playerHorizontalSweep b [t]).rect.collide t = false) ∧
    (b.vely ≠ 0 → (HDR.playerVerticalSweep b [t]).rect.collide t = false) ∧
    (0 < b.vely → (HDR.koopaVerticalSweep b [t]).rect.collide t = false) := by
  refine ⟨?_, ?_, ?_, ?_, ?_⟩
  · intro hv
    unfold HDX.horizontalSweep HDX.check_collisions_x
    rw [List.foldl_cons, List.foldl_nil]
    unfold HDX.stepTileX
    cases hc : (moveX b).rect.collide t with
    | false => simpa using hc
    | true =>
      rw [if_pos rfl]
      have hvx : (moveX b).velx = b.velx := rfl
      rcases lt_or_gt_of_ne hv with h | h
      · rw [hvx, if_neg (by exact not_lt.mpr (le_of_lt h)), if_pos h]
        exact collide_false_left _ t (by simp)
      · rw [hvx, if_pos h]
        exact collide_false_right _ t (by simp)
  · intro hv
    unfold HDX.verticalSweep HDX.check_collisions_y
    rw [List.foldl_cons, List.foldl_nil]
    unfold HDX.stepTileY
    cases hc : ({ moveY b with onGround := false } : Body).rect.collide t with
    | false => simpa using hc
    | true =>
      rw [if_pos rfl]
      have hvy : ({ moveY b with onGround := false } : Body).vely = b.vely := rfl
      rcases lt_or_gt_of_ne hv with h | h
      · rw [hvy, if_neg (by exact not_lt.mpr (le_of_lt h)), if_pos h]
        exact collide_false_top _ t (by simp)
      · rw [hvy, if_pos h]
        exact collide_false_bottom _ t (by simp)
  · intro hv
    unfold HDR.playerHorizontalSweep HDR.player_check_collisions_x
    rw [List.foldl_cons, List.foldl_nil]
    unfold HDR.playerStepTileX
    cases hc : (moveX b).rect.collide t with
    | false => simpa using hc
    | true =>
      rw [if_pos rfl]
      have hvx : (moveX b).velx = b.velx := rfl
      rcases lt_or_gt_of_ne hv with h | h
      · rw [hvx, if_neg (by exact not_lt.mpr (le_of_lt h)), if_pos h]
        exact collide_false_left _ t (by simp)
      · rw [hvx, if_pos h]
        exact collide_false_right _ t (by simp)
  · intro hv
    unfold HDR.playerVerticalSweep HDR.player_check_collisions_y
    rw [List.foldl_cons, List.foldl_nil]
    unfold HDR.playerStepTileY
    cases hc : (moveY b).rect.collide t with
    | false => simpa using hc
    | true =>
      rw [if_pos rfl]
      have hvy : (moveY b).vely = b.vely := rfl
      rcases lt_or_gt_of_ne hv with h | h
      · rw [hvy, if_neg (by exact not_lt.mpr (le_of_lt h)), if_pos h]
        exact collide_false_top _ t (by simp)
      · rw [hvy, if_pos h]
        exact collide_false_bottom _ t (by simp)
  · intro hv
    unfold HDR.koopaVerticalSweep HDR.koopa_check_collisions
    rw [List.foldl_cons, List.foldl_nil]
    unfold HDR.koopaStepTileY
    cases hc : (moveY b).rect.collide t with
    | false => simpa using hc
    | true =>
      rw [if_pos rfl]
      have hvy : (moveY b).vely = b.vely := rfl
      rw [hvy, if_pos hv]
      exact collide_false_bottom _ t (by simp)

/-- C2 witness: a body moving right and down by 5 against a single tile ends
every single-solid sweep of both variants with no overlap. -/
theorem C2_single_solid_resolution_witness :
    (HDX.horizontalSweep ⟨⟨0, 0, 32, 32⟩, 5, 5, false⟩ [⟨32, 0, 32, 32⟩]).rect.collide
        ⟨32, 0, 32, 32⟩ = false ∧
    (HDX.verticalSweep ⟨⟨0, 0, 32, 32⟩, 5, 5, false⟩ [⟨32, 0, 32, 32⟩]).rect.collide
        ⟨32, 0, 32, 32⟩ = false ∧
    (HDR.playerHorizontalSweep ⟨⟨0, 0, 32, 32⟩, 5, 5, false⟩ [⟨32, 0, 32, 32⟩]).rect.collide
        ⟨32, 0, 32, 32⟩ = false ∧
    (HDR.playerVerticalSweep ⟨⟨0, 0, 32, 32⟩, 5, 5, false⟩ [⟨32, 0, 32, 32⟩]).rect.collide
        ⟨32, 0, 32, 32⟩ = false ∧
    (HDR.koopaVerticalSweep ⟨⟨0, 0, 32, 32⟩, 5, 5, false⟩ [⟨32, 0, 32, 32⟩]).rect.collide
        ⟨32, 0, 32, 32⟩ = false :=
  ⟨(C2_single_solid_resolution _ _).1 (by norm_num),
    (C2_single_solid_resolution _ _).2.1 (by norm_num),
    (C2_single_solid_resolution _ _).2.2.1 (by norm_num),
    (C2_single_solid_resolution _ _).2.2.2.1 (by norm_num),
    (C2_single_solid_resolution _ _).2.2.2.2 (by norm_num)⟩

/-- C2 counterexample, three parts.  First: a body at rest exactly on a solid
tile (both velocities zero) still overlaps it after the full axis-separated
resolution of the tick, because both sweep branches require a nonzero
velocity.  Second: a fast rightward body whose moved box overlaps two solids
in different grid rows is snapped against the first one in scan order only,
and ends the horizontal sweep still overlapping the second.  Third: a rising
variant B enemy (vertical velocity -8, so nonzero) over a single solid ends
its vertical sweep still overlapping it, because that sweep has no rising
branch. -/
theorem C2_counterexample :
    (HDX.integrate ⟨⟨0, 0, 32, 32⟩, 0, 0, false⟩ [⟨0, 0, 32, 32⟩]).rect.collide
        ⟨0, 0, 32, 32⟩ = true ∧
    (HDX.horizontalSweep ⟨⟨0, 16, 32, 32⟩, 110, 0, false⟩
        [⟨128, 0, 32, 32⟩, ⟨96, 32, 32, 32⟩]).rect.collide ⟨96, 32, 32, 32⟩ = true ∧
    (HDR.koopaVerticalSweep ⟨⟨64, 72, 32, 32⟩, 0, -8, false⟩ [⟨64, 48, 32, 32⟩]).rect.collide
        ⟨64, 48, 32, 32⟩ = true := by
  refine ⟨?_, ?_, ?_⟩
  · norm_num [HDX.integrate, HDX.verticalSweep, HDX.horizontalSweep, HDX.check_collisions_x,
      HDX.check_collisions_y, HDX.stepTileX, HDX.stepTileY, moveX, moveY, pyInt, Rect.collide]
  · norm_num [HDX.horizontalSweep, HDX.check_collisions_x, HDX.stepTileX, moveX, pyInt,
      Rect.collide]
  · norm_num [HDR.koopaVerticalSweep, HDR.koopa_check_collisions, HDR.koopaStepTileY, moveY,
      pyInt, Rect.collide]

/-- C3, amended: whenever the moved bounding box overlaps a solid, both
variants clamp position.x so the leading edge touches the facing tile edge on
the side of travel; variant A additionally zeroes velocity.x, while the
variant B player sweep leaves velocity.x unchanged (it is overwritten from
input on the next tick). -/
theorem C3_horizontal_clamp (b : Body) (t : Rect)
    (hc : (moveX b).rect.collide t = true) :
    (0 < b.velx →
      (HDX.horizontalSweep b [t]).rect.x = t.x - b.rect.w ∧
      (HDX.horizontalSweep b [t]).velx = 0 ∧
      (HDR.playerHorizontalSweep b [t]).rect.x = t.x - b.rect.w ∧
      (HDR.playerHorizontalSweep b [t]).velx = b.velx) ∧
    (b.velx < 0 →
      (HDX.horizontalSweep b [t]).rect.x = t.x + t.w ∧
      (HDX.horizontalSweep b [t]).velx = 0 ∧
      (HDR.playerHorizontalSweep b [t]).rect.x = t.x + t.w ∧
      (HDR.playerHorizontalSweep b [t]).velx = b.velx) := by
  unfold HDX.horizontalSweep HDX.check_collisions_x HDR.playerHorizontalSweep
    HDR.player_check_collisions_x
  rw [List.foldl_cons, List.foldl_nil, List.foldl_cons, List.foldl_nil]
  unfold HDX.stepTileX HDR.playerStepTileX
  rw [if_pos hc, if_pos hc]
  have hvx : (moveX b).velx = b.velx := rfl
  constructor
  · intro h
    rw [hvx, if_pos h]
    exact ⟨rfl, rfl, rfl, rfl⟩
  · intro h
    rw [hvx, if_neg (by exact not_lt.mpr (le_of_lt h)), if_pos h]
    exact ⟨rfl, rfl, rfl, rfl⟩

/-- C3 witness: a body moving right at 6 into a tile is clamped to the tile
left edge in both variants; variant A zeroes the velocity. -/
theorem C3_horizontal_clamp_witness :
    (HDX.horizontalSweep ⟨⟨0, 0, 32, 32⟩, 6, 0, false⟩ [⟨32, 0, 32, 32⟩]).rect.x = 0 ∧
    (HDX.horizontalSweep ⟨⟨0, 0, 32, 32⟩, 6, 0, false⟩ [⟨32, 0, 32, 32⟩]).velx = 0 ∧
    (HDR.playerHorizontalSweep ⟨⟨0, 0, 32, 32⟩, 6, 0, false⟩ [⟨32, 0, 32, 32⟩]).rect.x = 0 ∧
    (HDR.playerHorizontalSweep ⟨⟨0, 0, 32, 32⟩, 6, 0, false⟩ [⟨32, 0, 32, 32⟩]).velx = 6 := by
  have h := (C3_horizontal_clamp ⟨⟨0, 0, 32, 32⟩, 6, 0, false⟩ ⟨32, 0, 32, 32⟩
    (by norm_num [moveX, pyInt, Rect.collide])).1 (by norm_num)
  simpa using h

/-- C3 counterexample: in variant B the player horizontal sweep does find the
contact and clamps (the leading edge lands on the tile left edge, x = 0), but
velocity.x stays 5 instead of being set to zero as the claim states. -/
theorem C3_counterexample :
    (moveX ⟨⟨0, 0, 32, 32⟩, 5, 0, false⟩).rect.collide ⟨32, 0, 32, 32⟩ = true ∧
    (HDR.playerHorizontalSweep ⟨⟨0, 0, 32, 32⟩, 5, 0, false⟩ [⟨32, 0, 32, 32⟩]).rect.x = 0 ∧
    (HDR.playerHorizontalSweep ⟨⟨0, 0, 32, 32⟩, 5, 0, false⟩ [⟨32, 0, 32, 32⟩]).velx ≠ 0 := by
  norm_num [HDR.playerHorizontalSweep, HDR.player_check_collisions_x, HDR.playerStepTileX,
    moveX, pyInt, Rect.collide]

namespace HDX

/-- Variant A constant `JUMP_STRENGTH`. -/
def JUMP_STRENGTH : ℚ := -12

/-- Variant A constant `KOOPA_SPEED`. -/
def KOOPA_SPEED : ℚ := 2

/-- Variant A constant `KOOPA_SHELL_SPEED`. -/
def KOOPA_SHELL_SPEED : ℚ := 10

/-- Variant A player state relevant to encounters: bounding rect, velocity,
and the shell flag set by the dash move. -/
structure Player where
  rect : Rect
  velx : ℚ
  vely : ℚ
  shell_state : Bool
deriving DecidableEq, Repr

/-- Variant A Koopa state: bounding rect, velocity, patrol direction, shell
flag and shell timer, as set in `Koopa.__init__`. -/
structure Koopa where
  rect : Rect
  velx : ℚ
  vely : ℚ
  direction : Int
  shell : Bool
  shell_timer : Int
deriving DecidableEq, Repr

/-- Variant A `Koopa.stomp`: shell on, timer 180, stop horizontally. -/
def Koopa.stomp (k : Koopa) : Koopa :=
  { k with shell := true, shell_timer := 180, velx := 0 }

/-- Variant A `Koopa.kick`: shell on, timer 300, take the given direction,
slide at shell speed in that direction, small upward impulse. -/
def Koopa.kick (k : Koopa) (direction : Int) : Koopa :=
  { k with shell := true, shell_timer := 300, direction := direction,
           velx := KOOPA_SHELL_SPEED * (direction : ℚ), vely := -5 }

/-- Variant A `GameManager.update` line 466: the kick direction is computed
from the player horizontal velocity as `1 if vel.x > 0 else -1`. -/
def kickDirection (vx : ℚ) : Int :=
  if vx > 0 then 1 else -1

/-- The part of the variant A session state threaded through the enemy
interaction loop: player, score, lives, and the early-exit flag modelling the
`return False` on game over. -/
structure Step where
  player : Player
  score : Int
  lives : Int
  over : Bool
deriving DecidableEq, Repr

/-- Variant A `GameManager.update`, one iteration of the enemy loop for a
koopa already known to overlap the player at loop entry: stomp when falling
with the player bottom above the koopa vertical center, else kick when the
player is in shell mode, else take damage (game over at zero lives, otherwise
respawn at the fixed start with zero velocity). -/
def interactOne (st : Step) (k : Koopa) : Step × Koopa :=
  if st.over then (st, k)
  else if st.player.vely > 0 ∧ st.player.rect.y + st.player.rect.h < k.rect.y + k.rect.h / 2 then
    let p2 : Player := { st.player with vely := JUMP_STRENGTH * (7/10) }
    ({ st with player := p2, score := st.score + 100 }, k.stomp)
  else if st.player.shell_state then
    ({ st with score := st.score + 200 }, k.kick (kickDirection st.player.velx))
  else
    let lives2 := st.lives - 1
    if lives2 ≤ 0 then ({ st with lives := lives2, over := true }, k)
    else
      let p2 : Player :=
        { st.player with rect := { st.player.rect with x := 100, y := 100 }, velx := 0, vely := 0 }
      ({ st with lives := lives2, player := p2 }, k)

/-- One fold step of the variant A enemy loop: `pg.sprite.spritecollide`
fixes the overlap set with the player rect as it is when the loop starts
(`p0rect`); non-overlapping koopas pass through untouched. -/
def enemyStep (p0rect : Rect) (acc : Step × List Koopa) (k : Koopa) : Step × List Koopa :=
  if p0rect.collide k.rect then
    let r := interactOne acc.1 k
    (r.1, acc.2 ++ [r.2])
  else (acc.1, acc.2 ++ [k])

/-- Variant A enemy interaction phase of `GameManager.update`. -/
def enemyPhase (st : Step) (ks : List Koopa) : Step × List Koopa :=
  ks.foldl (enemyStep st.player.rect) (st, [])

/-- Variant A `Koopa.update`, horizontal portion (lines 362-379): set the
horizontal velocity from speed and direction, move, snap against the first
overlapping tile and flip direction on a wall hit.  The separate ledge probe
that follows in the source does not move the body and is out of scope here. -/
def Koopa.patrolX (k : Koopa) (tiles : List Rect) : Koopa :=
  let k1 : Koopa :=
    { k with velx := (if k.shell then KOOPA_SHELL_SPEED else KOOPA_SPEED) * (k.direction : ℚ) }
  let k2 : Koopa := { k1 with rect := { k1.rect with x := pyInt ((k1.rect.x : ℚ) + k1.velx) } }
  match tiles.find? (fun t => k2.rect.collide t) with
  | some t =>
      let k3 : Koopa :=
        if k2.velx > 0 then { k2 with rect := { k2.rect with x := t.x - k2.rect.w } }
        else { k2 with rect := { k2.rect with x := t.x + t.w } }
      { k3 with direction := -k3.direction }
  | none => k2

end HDX

namespace HDR

/-- Variant B constant `JUMP_STRENGTH`. -/
def JUMP_STRENGTH : ℚ := -10

/-- Variant B constant `KOOPA_SPEED` (the koopa walk speed attribute). -/
def KOOPA_SPEED : ℚ := 1

/-- Variant B constant `KOOPA_SHELL_SPEED`. -/
def KOOPA_SHELL_SPEED : ℚ := 8

/-- Variant B player state relevant to encounters. -/
structure Player where
  rect : Rect
  velx : ℚ
  vely : ℚ
  shell_state : Bool
deriving DecidableEq, Repr

/-- Variant B Koopa state; `alive` models membership in the sprite groups,
cleared by `enemy.kill()`. -/
structure Koopa where
  rect : Rect
  velx : ℚ
  vely : ℚ
  direction : Int
  shell : Bool
  shell_timer : Int
  alive : Bool
deriving DecidableEq, Repr

/-- Variant B `Koopa.kick`: takes no direction argument; the direction is the
reverse of the sign of the koopa own velocity (`1 if vel.x < 0 else -1`),
the timer is reset to 180, and the usual slide and upward impulse follow. -/
def Koopa.kick (k : Koopa) : Koopa :=
  let d : Int := if k.velx < 0 then 1 else -1
  { k with shell := true, shell_timer := 180, direction := d,
           velx := (d : ℚ) * KOOPA_SHELL_SPEED, vely := -5 }

/-- Variant B `GameManager.update`: the feet strip used by the stomp test,
`Rect(x, bottom - 5, width, 10)`, computed once before the enemy loop. -/
def playerFeet (r : Rect) : Rect :=
  ⟨r.x, r.y + r.h - 5, r.w, 10⟩

/-- The part of the variant B session state threaded through the enemy
loop. -/
structure Step where
  player : Player
  score : Int
  lives : Int
  over : Bool
deriving DecidableEq, Repr

/-- Variant B `GameManager.update`, one iteration of the enemy loop: if the
enemy overlaps the precomputed feet strip while the player falls, the enemy
is destroyed outright (`kill()`), the player bounces at 0.8 jump strength and
the score rises by 100; otherwise on body overlap a shell-mode player kicks
(+50), else damage is taken with respawn at (200, 64) zeroing only the
vertical velocity. -/
def interactOne (feet : Rect) (st : Step) (k : Koopa) : Step × Koopa :=
  if st.over then (st, k)
  else if k.rect.collide feet ∧ st.player.vely > 0 then
    let p2 : Player := { st.player with vely := JUMP_STRENGTH * (4/5) }
    ({ st with player := p2, score := st.score + 100 }, { k with alive := false })
  else if st.player.rect.collide k.rect then
    if st.player.shell_state then ({ st with score := st.score + 50 }, k.kick)
    else
      let lives2 := st.lives - 1
      if lives2 ≤ 0 then ({ st with lives := lives2, over := true }, k)
      else
        let p2 : Player :=
          { st.player with rect := { st.player.rect with x := 200, y := 64 }, vely := 0 }
        ({ st with lives := lives2, player := p2 }, k)
  else (st, k)

/-- Variant B enemy interaction phase of `GameManager.update`. -/
def enemyPhase (st : Step) (ks : List Koopa) : Step × List Koopa :=
  let feet := playerFeet st.player.rect
  ks.foldl (fun acc k =>
    let r := interactOne feet acc.1 k
    (r.1, acc.2 ++ [r.2])) (st, [])

/-- Variant B `Koopa.update`, horizontal portion (lines 262-286): set the
velocity from walk speed and direction, move one step, snap and reverse on a
wall hit, and otherwise restore the previous position, so that without a wall
contact the horizontal position never changes. -/
def Koopa.patrolX (k : Koopa) (tiles : List Rect) : Koopa :=
  let k1 : Koopa := { k with velx := KOOPA_SPEED * (k.direction : ℚ) }
  let oldX := k1.rect.x
  let k2 : Koopa := { k1 with rect := { k1.rect with x := pyInt ((k1.rect.x : ℚ) + k1.velx) } }
  match tiles.find? (fun t => k2.rect.collide t) with
  | some t =>
      let k3 : Koopa :=
        if k2.direction = 1 then { k2 with rect := { k2.rect with x := t.x - k2.rect.w } }
        else { k2 with rect := { k2.rect with x := t.x + t.w } }
      { k3 with direction := -k3.direction }
  | none => { k2 with rect := { k2.rect with x := oldX } }

end HDR

/-- C4, amended: in variant A the claim holds exactly as stated, with bounce
factor 0.7: when the player overlaps an enemy while falling with the bottom
edge above the enemy vertical center, the enemy is stomped into the idle
shell state (shell on, slide stopped, timer 180), the player receives the
negative bounce `JUMP_STRENGTH * 0.7`, and the score rises by exactly 100.
(Variant B instead destroys the enemy outright on a feet-strip overlap test;
see the counterexample.) -/
theorem C4_stomp_variantA (p : HDX.Player) (k : HDX.Koopa) (sc lv : Int)
    (hcol : p.rect.collide k.rect = true) (hfall : 0 < p.vely)
    (habove : p.rect.y + p.rect.h < k.rect.y + k.rect.h / 2) :
    (HDX.enemyPhase ⟨p, sc, lv, false⟩ [k]).1.score = sc + 100 ∧
    (HDX.enemyPhase ⟨p, sc, lv, false⟩ [k]).1.player.vely = HDX.JUMP_STRENGTH * (7/10) ∧
    (HDX.enemyPhase ⟨p, sc, lv, false⟩ [k]).1.player.vely < 0 ∧
    (HDX.enemyPhase ⟨p, sc, lv, false⟩ [k]).2 = [k.stomp] ∧
    k.stomp.shell = true ∧ k.stomp.velx = 0 ∧ k.stomp.shell_timer = 180 := by
  have h2 : HDX.interactOne ⟨p, sc, lv, false⟩ k
      = (⟨{ p with vely := HDX.JUMP_STRENGTH * (7/10) }, sc + 100, lv, false⟩, k.stomp) := by
    unfold HDX.interactOne
    simp [hfall, habove]
  have h1 : HDX.enemyPhase ⟨p, sc, lv, false⟩ [k]
      = (⟨{ p with vely := HDX.JUMP_STRENGTH * (7/10) }, sc + 100, lv, false⟩, [k.stomp]) := by
    unfold HDX.enemyPhase HDX.enemyStep
    rw [List.foldl_cons, List.foldl_nil]
    simp only [hcol, if_true, h2, List.nil_append]
  rw [h1]
  refine ⟨rfl, rfl, ?_, rfl, rfl, rfl, rfl⟩
  norm_num [HDX.JUMP_STRENGTH]

/-- C4 witness: the stomp scenario of the spec, a player falling at vertical
velocity 3 with its bottom edge 2 pixels above the enemy center. -/
theorem C4_stomp_variantA_witness :
    (HDX.enemyPhase ⟨⟨⟨0, 82, 32, 32⟩, 0, 3, false⟩, 0, 3, false⟩
        [⟨⟨0, 100, 32, 32⟩, 0, 0, 1, false, 0⟩]).1.score = 0 + 100 ∧
    (HDX.enemyPhase ⟨⟨⟨0, 82, 32, 32⟩, 0, 3, false⟩, 0, 3, false⟩
        [⟨⟨0, 100, 32, 32⟩, 0, 0, 1, false, 0⟩]).1.player.vely
      = HDX.JUMP_STRENGTH * (7/10) ∧
    (HDX.enemyPhase ⟨⟨⟨0, 82, 32, 32⟩, 0, 3, false⟩, 0, 3, false⟩
        [⟨⟨0, 100, 32, 32⟩, 0, 0, 1, false, 0⟩]).1.player.vely < 0 ∧
    (HDX.enemyPhase ⟨⟨⟨0, 82, 32, 32⟩, 0, 3, false⟩, 0, 3, false⟩
        [⟨⟨0, 100, 32, 32⟩, 0, 0, 1, false, 0⟩]).2
      = [HDX.Koopa.stomp ⟨⟨0, 100, 32, 32⟩, 0, 0, 1, false, 0⟩] ∧
    (HDX.Koopa.stomp ⟨⟨0, 100, 32, 32⟩, 0, 0, 1, false, 0⟩).shell = true ∧
    (HDX.Koopa.stomp ⟨⟨0, 100, 32, 32⟩, 0, 0, 1, false, 0⟩).velx = 0 ∧
    (HDX.Koopa.stomp ⟨⟨0, 100, 32, 32⟩, 0, 0, 1, false, 0⟩).shell_timer = 180 :=
  C4_stomp_variantA ⟨⟨0, 82, 32, 32⟩, 0, 3, false⟩ ⟨⟨0, 100, 32, 32⟩, 0, 0, 1, false, 0⟩ 0 3
    (by norm_num [Rect.collide]) (by norm_num) (by norm_num)

/-- C4 counterexample: the same geometric situation in variant B (overlap,
player falling at 3, bottom edge 114 above the enemy center 116, so the
claim trigger holds) removes the enemy from play instead of transitioning it
to the idle shell state: afterwards the enemy is not alive and its shell flag
is still false; the bounce uses factor 0.8 (JUMP_STRENGTH -10 gives -8). -/
theorem C4_counterexample :
    Rect.collide ⟨0, 82, 32, 32⟩ ⟨0, 100, 32, 32⟩ = true ∧
    ((82 : Int) + 32 < 100 + 32 / 2) ∧
    ((HDR.enemyPhase ⟨⟨⟨0, 82, 32, 32⟩, 0, 3, false⟩, 0, 3, false⟩
        [⟨⟨0, 100, 32, 32⟩, 0, 0, 1, false, 0, true⟩]).2.map
          (fun k => (k.alive, k.shell))) = [(false, false)] ∧
    (HDR.enemyPhase ⟨⟨⟨0, 82, 32, 32⟩, 0, 3, false⟩, 0, 3, false⟩
        [⟨⟨0, 100, 32, 32⟩, 0, 0, 1, false, 0, true⟩]).1.player.vely = -8 := by
  refine ⟨by norm_num [Rect.collide], by norm_num, ?_, ?_⟩ <;>
    norm_num [HDR.enemyPhase, HDR.interactOne, HDR.playerFeet, HDR.JUMP_STRENGTH, Rect.collide]

/-- C6: evaluation contrasting the two variants on a patrolling enemy.  In
variant B a koopa at x = 100 with direction +1 and no wall in reach ends the
horizontal phase still at x = 100 (the code restores the old position when no
collision occurs), with the velocity nonetheless set to walk speed times
direction; in variant A the same situation advances the position by the
velocity (2 per tick), and a wall contact flips the direction. -/
theorem C6_patrol_eval :
    (HDR.Koopa.patrolX ⟨⟨100, 0, 32, 32⟩, 0, 0, 1, false, 0, true⟩ []).rect.x = 100 ∧
    (HDR.Koopa.patrolX ⟨⟨100, 0, 32, 32⟩, 0, 0, 1, false, 0, true⟩ []).velx
      = HDR.KOOPA_SPEED * 1 ∧
    (HDX.Koopa.patrolX ⟨⟨100, 0, 32, 32⟩, 0, 0, 1, false, 0⟩ []).rect.x = 102 ∧
    (HDX.Koopa.patrolX ⟨⟨95, 0, 32, 32⟩, 0, 0, 1, false, 0⟩ [⟨128, 0, 32, 32⟩]).direction = -1 ∧
    (HDX.Koopa.patrolX ⟨⟨95, 0, 32, 32⟩, 0, 0, 1, false, 0⟩ [⟨128, 0, 32, 32⟩]).rect.x = 96 := by
  refine ⟨?_, ?_, ?_, ?_, ?_⟩ <;>
    norm_num [HDR.Koopa.patrolX, HDX.Koopa.patrolX, HDR.KOOPA_SPEED, HDX.KOOPA_SPEED,
      HDX.KOOPA_SHELL_SPEED, List.find?, pyInt, Rect.collide]

/-- C7, amended for variant A, where the claim holds: a kick event carrying
direction d sets the patrol direction to d, the horizontal velocity to
`KOOPA_SHELL_SPEED * d` (10 d), applies the upward impulse -5, and resets the
shell timer to 300, with the shell flag on. -/
theorem C7_kick_variantA (k : HDX.Koopa) (d : Int) :
    (k.kick d).direction = d ∧
    (k.kick d).velx = HDX.KOOPA_SHELL_SPEED * (d : ℚ) ∧
    (k.kick d).vely = -5 ∧
    (k.kick d).vely < 0 ∧
    (k.kick d).shell = true ∧
    (k.kick d).shell_timer = 300 := by
  refine ⟨rfl, rfl, rfl, ?_, rfl, rfl⟩
  norm_num [HDX.Koopa.kick]

/-- C7 counterexample: the variant B kick takes no direction argument and
resets the shell timer to 180, not 300; on an idle shell (velocity zero) it
derives direction -1 from the sign test `1 if vel.x < 0 else -1`. -/
theorem C7_counterexample :
    (HDR.Koopa.kick ⟨⟨0, 0, 32, 32⟩, 0, 0, 1, true, 2, true⟩).shell_timer = 180 ∧
    ((180 : Int) ≠ 300) ∧
    (HDR.Koopa.kick ⟨⟨0, 0, 32, 32⟩, 0, 0, 1, true, 2, true⟩).direction = -1 := by
  refine ⟨rfl, by norm_num, ?_⟩
  norm_num [HDR.Koopa.kick]

/-- C8, amended: the kick direction computed at the variant A call site is +1
exactly when the player horizontal velocity is strictly positive and -1
otherwise; in particular a player with velocity exactly zero kicks leftward,
not rightward. -/
theorem C8_kick_direction (vx : ℚ) :
    (0 < vx → HDX.kickDirection vx = 1) ∧ (vx ≤ 0 → HDX.kickDirection vx = -1) := by
  constructor
  · intro h
    unfold HDX.kickDirection
    rw [if_pos h]
  · intro h
    unfold HDX.kickDirection
    rw [if_neg (not_lt.mpr h)]

/-- C8 witness: the two cases instantiated at velocities 4 and 0. -/
theorem C8_kick_direction_witness :
    HDX.kickDirection 4 = 1 ∧ HDX.kickDirection 0 = -1 :=
  ⟨(C8_kick_direction 4).1 (by norm_num), (C8_kick_direction 0).2 (by norm_num)⟩

/-- C8 counterexample: a shell-mode player with horizontal velocity exactly
zero overlapping an enemy (the stomp test fails: vertical velocity 0 is not
downward) kicks the enemy with direction -1, not the rightward +1 the claim
states. -/
theorem C8_counterexample :
    ((HDX.enemyPhase ⟨⟨⟨0, 100, 32, 32⟩, 0, 0, true⟩, 0, 3, false⟩
        [⟨⟨0, 100, 32, 32⟩, 0, 0, 1, true, 50⟩]).2.map HDX.Koopa.direction) = [-1] ∧
    ((-1 : Int) ≠ 1) := by
  refine ⟨?_, by norm_num⟩
  norm_num [HDX.enemyPhase, HDX.enemyStep, HDX.interactOne, HDX.Koopa.kick, HDX.kickDirection,
    Rect.collide]

namespace HDX

/-- Variant A `GameManager.update` line 478 guard: the level is complete when
the player x position exceeds the map pixel width minus 100. -/
def levelComplete (px cols : Int) : Bool :=
  decide (px > cols * 32 - 100)

/-- The variant A WORLDS table holds three worlds. -/
def WORLD_COUNT : Nat := 3

/-- Each world of the variant A WORLDS table holds three levels. -/
def LEVELS_PER_WORLD : Nat := 3

/-- Variant A `GameManager.update` lines 479-483, the advancement arithmetic
written in the source: increment the level, roll over to the next world when
the levels of the current world are exhausted, and signal the game won (none)
when the worlds are exhausted. -/
def advanceWorldLevel (world level : Nat) : Option (Nat × Nat) :=
  let level2 := level + 1
  let wl := if level2 ≥ LEVELS_PER_WORLD then (world + 1, 0) else (world, level2)
  if wl.1 ≥ WORLD_COUNT then none else some wl

/-- Variant A `TileMap.load_tiles`: one 32-pixel square solid per `#` cell. -/
def gridTiles (data : List (List Char)) : List Rect :=
  (data.enum.map (fun p =>
    p.2.enum.filterMap (fun q =>
      if q.2 = '#' then some (⟨32 * (q.1 : Int), 32 * (p.1 : Int), 32, 32⟩ : Rect)
      else none))).flatten

/-- Variant A `TileMap.load_tiles` and `Coin.__init__`: each `C` cell yields a
20 by 20 coin whose topleft is the cell center minus 10 on both axes. -/
def gridCoins (data : List (List Char)) : List Rect :=
  (data.enum.map (fun p =>
    p.2.enum.filterMap (fun q =>
      if q.2 = 'C' then some (⟨32 * (q.1 : Int) + 6, 32 * (p.1 : Int) + 6, 20, 20⟩ : Rect)
      else none))).flatten

/-- Variant A `TileMap.load_tiles` and `Koopa.__init__`: each `K` cell spawns
a koopa at the cell topleft with direction +1 and no shell. -/
def gridKoopas (data : List (List Char)) : List Koopa :=
  (data.enum.map (fun p =>
    p.2.enum.filterMap (fun q =>
      if q.2 = 'K' then
        some (⟨⟨32 * (q.1 : Int), 32 * (p.1 : Int), 32, 32⟩, 0, 0, 1, false, 0⟩ : Koopa)
      else none))).flatten

/-- The variant A session state owned by `GameManager`: player, live koopas
and coins, the current grid and indices, score, lives, and the terminal
flag. -/
structure Session where
  player : Player
  koopas : List Koopa
  coins : List Rect
  grid : List (List Char)
  world : Nat
  level : Nat
  score : Int
  lives : Int
  over : Bool
deriving DecidableEq, Repr

/-- Variant A coin collection: `pg.sprite.spritecollide(player, coins, True)`
removes every coin overlapping the player and awards 50 each. -/
def coinPhase (s : Session) : Session :=
  let collected := s.coins.countP (fun c => s.player.rect.collide c)
  { s with coins := s.coins.filter (fun c => !(s.player.rect.collide c)),
           score := s.score + 50 * (collected : Int) }

/-- Variant A enemy interaction phase lifted to the session. -/
def enemyPhaseS (s : Session) : Session :=
  let r := enemyPhase ⟨s.player, s.score, s.lives, false⟩ s.koopas
  { s with player := r.1.player, score := r.1.score, lives := r.1.lives, over := r.1.over,
           koopas := r.2 }

/-- Variant A level-completion phase, using the advancement arithmetic of the
source and reloading player position, coins and koopas from the level data
provider; the score and lives are untouched by a reload. -/
def levelPhase (lv : Nat → Nat → List (List Char)) (s : Session) : Session :=
  if s.over then s
  else if levelComplete s.player.rect.x ((s.grid.headD []).length : Int) then
    match advanceWorldLevel s.world s.level with
    | none => { s with over := true }
    | some wl =>
        let g := lv wl.1 wl.2
        let p2 : Player :=
          { s.player with rect := { s.player.rect with x := 100, y := 100 }, velx := 0, vely := 0 }
        { s with world := wl.1, level := wl.2, grid := g, player := p2,
                 coins := gridCoins g, koopas := gridKoopas g }
  else s

/-- The score-relevant portion of one variant A `GameManager.update` call at
given post-integration body states: coin collection, then the enemy loop,
then the level-completion check; the physics portion of the update that
precedes it reads and writes no score field. -/
def resolveTick (lv : Nat → Nat → List (List Char)) (s : Session) : Session :=
  if s.over then s else levelPhase lv (enemyPhaseS (coinPhase s))

theorem interactOne_score_mono (st : Step) (k : Koopa) :
    st.score ≤ (interactOne st k).1.score := by
  unfold interactOne
  split_ifs <;> try simp
  all_goals (split <;> simp)

theorem enemyStep_score_mono (r : Rect) (acc : Step × List Koopa) (k : Koopa) :
    acc.1.score ≤ (enemyStep r acc k).1.score := by
  unfold enemyStep
  split_ifs
  · exact interactOne_score_mono acc.1 k
  · exact le_rfl

theorem foldl_enemyStep_score_mono (r : Rect) (ks : List Koopa) (acc : Step × List Koopa) :
    acc.1.score ≤ (ks.foldl (enemyStep r) acc).1.score := by
  induction ks generalizing acc with
  | nil => exact le_rfl
  | cons k ks ih => exact le_trans (enemyStep_score_mono r acc k) (ih _)

theorem enemyPhase_score_mono (st : Step) (ks : List Koopa) :
    st.score ≤ (enemyPhase st ks).1.score :=
  foldl_enemyStep_score_mono _ ks (st, [])

theorem enemyPhaseS_score_mono (s : Session) : s.score ≤ (enemyPhaseS s).score :=
  enemyPhase_score_mono ⟨s.player, s.score, s.lives, false⟩ s.koopas

theorem coinPhase_score_mono (s : Session) : s.score ≤ (coinPhase s).score := by
  unfold coinPhase
  simp only []
  omega

theorem levelPhase_score_eq (lv : Nat → Nat → List (List Char)) (s : Session) :
    (levelPhase lv s).score = s.score := by
  unfold levelPhase
  split
  · rfl
  · split
    · split <;> rfl
    · rfl

theorem resolveTick_score_mono (lv : Nat → Nat → List (List Char)) (s : Session) :
    s.score ≤ (resolveTick lv s).score := by
  unfold resolveTick
  split
  · exact le_rfl
  · rw [levelPhase_score_eq]
    exact le_trans (coinPhase_score_mono s) (enemyPhaseS_score_mono (coinPhase s))

end HDX

/-- The build failure of a tile map: indexing the first row of an empty
sequence raises at construction time. -/
inductive BuildError where
  | indexError
deriving DecidableEq, Repr

namespace HDR

/-- Variant B `TileMap.load_tiles`: one 32-pixel square solid per `#` cell. -/
def tilesOf (data : List (List Char)) : List Rect :=
  (data.enum.map (fun p =>
    p.2.enum.filterMap (fun q =>
      if q.2 = '#' then some (⟨32 * (q.1 : Int), 32 * (p.1 : Int), 32, 32⟩ : Rect)
      else none))).flatten

/-- Variant B `TileMap.load_tiles`: each `C` cell yields the cell-center coin
point. -/
def coinsOf (data : List (List Char)) : List (Int × Int) :=
  (data.enum.map (fun p =>
    p.2.enum.filterMap (fun q =>
      if q.2 = 'C' then some ((32 * (q.1 : Int) + 16, 32 * (p.1 : Int) + 16) : Int × Int)
      else none))).flatten

/-- Variant B `TileMap.load_tiles`: each `K` cell yields the cell topleft as a
koopa spawn point. -/
def koopasOf (data : List (List Char)) : List (Int × Int) :=
  (data.enum.map (fun p =>
    p.2.enum.filterMap (fun q =>
      if q.2 = 'K' then some ((32 * (q.1 : Int), 32 * (p.1 : Int)) : Int × Int)
      else none))).flatten

/-- Variant B `TileMap` after `__init__` plus `load_tiles`. -/
structure TileMap where
  data : List (List Char)
  width : Nat
  height : Nat
  tiles : List Rect
  coins : List (Int × Int)
  koopas : List (Int × Int)
deriving DecidableEq, Repr

/-- Variant B tile map construction, `TileMap(data)` followed by
`load_tiles()`: the width is read from the first row (raising an index error
on an empty sequence, the only failure); no rectangularity check is made, so
rows of unequal length are accepted as they are.  The variant A construction
is identical apart from the coin point offset. -/
def TileMap.build (data : List (List Char)) : Except BuildError TileMap :=
  match data with
  | [] => .error .indexError
  | r :: _ =>
      .ok { data := data, width := r.length, height := data.length,
            tiles := tilesOf data, coins := coinsOf data, koopas := koopasOf data }

end HDR

/-- Whether a build result is a success. -/
def buildOk (e : Except BuildError HDR.TileMap) : Bool :=
  match e with
  | .ok _ => true
  | .error _ => false

/-- C5: the completion guard of variant A, evaluated around the boundary for
the 80-column levels of the source (pixel width 2560, threshold 2460), and
the advancement arithmetic: next level within a world, first level of the
next world, and game-won after world 3 level 3.  The claim fails only in that
the running code cannot perform this advancement: `GameManager` never defines
the `current_level` attribute it increments (see the results entry). -/
theorem C5_level_threshold :
    HDX.levelComplete (80 * 32 - 100 - 1) 80 = false ∧
    HDX.levelComplete (80 * 32 - 100 + 1) 80 = true ∧
    HDX.levelComplete (80 * 32 - 100) 80 = false ∧
    HDX.advanceWorldLevel 0 0 = some (0, 1) ∧
    HDX.advanceWorldLevel 0 2 = some (1, 0) ∧
    HDX.advanceWorldLevel 2 2 = none := by
  refine ⟨?_, ?_, ?_, ?_, ?_, ?_⟩ <;>
    norm_num [HDX.levelComplete, HDX.advanceWorldLevel, HDX.LEVELS_PER_WORLD, HDX.WORLD_COUNT]

/-- C9, amended: the tile map construction is total on non-empty input (no
rectangularity validation exists, so ragged rows build successfully) and
fails only on the empty sequence, with an index error rather than a dedicated
malformed-level error; being a plain function of its input, it is pure. -/
theorem C9_build_total :
    (∀ (r : List Char) (rs : List (List Char)), buildOk (HDR.TileMap.build (r :: rs)) = true) ∧
    buildOk (HDR.TileMap.build []) = false :=
  ⟨fun _ _ => rfl, rfl⟩

/-- C9 counterexample: a ragged two-row grid, which the claim says must be
rejected with `MalformedLevel`, builds successfully; its width is read from
the first row alone and all three `#` cells, including the out-of-width one,
become solids. -/
theorem C9_counterexample :
    buildOk (HDR.TileMap.build [['#', '#'], ['#']]) = true ∧
    HDR.TileMap.build [['#', '#'], ['#']]
      = .ok ⟨[['#', '#'], ['#']], 2, 2,
             [⟨0, 0, 32, 32⟩, ⟨32, 0, 32, 32⟩, ⟨0, 32, 32, 32⟩], [], []⟩ := by
  constructor
  · rfl
  · rfl

namespace HDR

/-- The variant B session state owned by `GameManager`, the parts its update
touches: player, live koopas, score, lives, and the terminal flag.  The
variant B update collects no coins and has no level-completion logic. -/
structure Session where
  player : Player
  koopas : List Koopa
  score : Int
  lives : Int
  over : Bool
deriving DecidableEq, Repr

/-- The score-relevant portion of one variant B `GameManager.update` call at
given post-integration body states: the enemy loop alone, since that update
contains no coin collection and no level transition; the sprite updates that
precede it read and write no score field. -/
def resolveTick (s : Session) : Session :=
  if s.over then s
  else
    let r := enemyPhase ⟨s.player, s.score, s.lives, false⟩ s.koopas
    { s with player := r.1.player, score := r.1.score, lives := r.1.lives, over := r.1.over,
             koopas := r.2 }

theorem interactOne_score_le (feet : Rect) (st : Step) (k : Koopa) :
    st.score ≤ (interactOne feet st k).1.score := by
  unfold interactOne
  split_ifs <;> try simp
  all_goals (split <;> simp)

theorem foldl_interact_score_le (feet : Rect) (ks : List Koopa) (acc : Step × List Koopa) :
    acc.1.score ≤ (ks.foldl (fun acc k =>
      let r := interactOne feet acc.1 k
      (r.1, acc.2 ++ [r.2])) acc).1.score := by
  induction ks generalizing acc with
  | nil => exact le_rfl
  | cons k ks ih =>
    rw [List.foldl_cons]
    exact le_trans (interactOne_score_le feet acc.1 k) (ih _)

theorem enemyPhase_score_le (st : Step) (ks : List Koopa) :
    st.score ≤ (enemyPhase st ks).1.score := by
  unfold enemyPhase
  exact foldl_interact_score_le (playerFeet st.player.rect) ks (st, [])

theorem resolveTick_score_le (s : Session) : s.score ≤ (resolveTick s).score := by
  unfold resolveTick
  split
  · exact le_rfl
  · exact enemyPhase_score_le ⟨s.player, s.score, s.lives, false⟩ s.koopas

end HDR

/-- C10: across one resolution tick of either variant the score never
decreases - variant A: coin collection, the enemy loop with its stomp, kick
and damage outcomes, and the level transition; variant B: the enemy loop,
the only score-touching part of its update - and iterating ticks from any
session with nonnegative score, in particular the initial score 0, keeps the
score nonnegative in both variants. -/
theorem C10_score_monotone :
    (∀ (lv : Nat → Nat → List (List Char)) (s : HDX.Session),
      s.score ≤ (HDX.resolveTick lv s).score) ∧
    (∀ (lv : Nat → Nat → List (List Char)) (s : HDX.Session) (n : Nat),
      0 ≤ s.score → 0 ≤ ((HDX.resolveTick lv)^[n] s).score) ∧
    (∀ (s : HDR.Session), s.score ≤ (HDR.resolveTick s).score) ∧
    (∀ (s : HDR.Session) (n : Nat),
      0 ≤ s.score → 0 ≤ (HDR.resolveTick^[n] s).score) := by
  refine ⟨HDX.resolveTick_score_mono, ?_, HDR.resolveTick_score_le, ?_⟩
  · intro lv s n h
    induction n generalizing s with
    | zero => simpa using h
    | succ n ih =>
      rw [Function.iterate_succ_apply]
      exact ih _ (le_trans h (HDX.resolveTick_score_mono lv s))
  · intro s n h
    induction n generalizing s with
    | zero => simpa using h
    | succ n ih =>
      rw [Function.iterate_succ_apply]
      exact ih _ (le_trans h (HDR.resolveTick_score_le s))

/-- C10 witness: concrete initial sessions of both variants with score 0, one
idle koopa away from the player (plus one distant coin in variant A), run for
two ticks. -/
theorem C10_score_monotone_witness :
    (⟨⟨⟨100, 100, 32, 32⟩, 0, 0, false⟩, [⟨⟨300, 100, 32, 32⟩, 0, 0, 1, false, 0⟩],
        [⟨500, 100, 20, 20⟩], [], 0, 0, 0, 3, false⟩ : HDX.Session).score
      ≤ (HDX.resolveTick (fun _ _ => [])
          ⟨⟨⟨100, 100, 32, 32⟩, 0, 0, false⟩, [⟨⟨300, 100, 32, 32⟩, 0, 0, 1, false, 0⟩],
            [⟨500, 100, 20, 20⟩], [], 0, 0, 0, 3, false⟩).score ∧
    0 ≤ ((HDX.resolveTick (fun _ _ => []))^[2]
          ⟨⟨⟨100, 100, 32, 32⟩, 0, 0, false⟩, [⟨⟨300, 100, 32, 32⟩, 0, 0, 1, false, 0⟩],
            [⟨500, 100, 20, 20⟩], [], 0, 0, 0, 3, false⟩).score ∧
    (⟨⟨⟨200, 64, 32, 32⟩, 0, 0, false⟩, [⟨⟨400, 100, 32, 32⟩, 0, 0, 1, false, 0, true⟩],
        0, 3, false⟩ : HDR.Session).score
      ≤ (HDR.resolveTick
          ⟨⟨⟨200, 64, 32, 32⟩, 0, 0, false⟩, [⟨⟨400, 100, 32, 32⟩, 0, 0, 1, false, 0, true⟩],
            0, 3, false⟩).score ∧
    0 ≤ (HDR.resolveTick^[2]
          ⟨⟨⟨200, 64, 32, 32⟩, 0, 0, false⟩, [⟨⟨400, 100, 32, 32⟩, 0, 0, 1, false, 0, true⟩],
            0, 3, false⟩).score :=
  ⟨C10_score_monotone.1 _ _, C10_score_monotone.2.1 _ _ 2 (le_refl 0),
    C10_score_monotone.2.2.1 _, C10_score_monotone.2.2.2 _ 2 (le_refl 0)⟩
